import Mathlib

/-!
Verification of the PDAO mobile registration/login backend.

The definitions below are a shallow embedding of the TypeScript sources:
  * `src/backend/models/User.ts`        (Zod schemas, Mongoose schema, pre-save hooks,
                                         `transformForMongoose`, serialization helpers)
  * `src/backend/validators/authValidators.ts` (express-validator chains, `validate`)
  * `src/backend/controllers`           (`register`, `login` of the auth controller)
  * `src/backend/routes/authRoutes.ts`  (middleware order: validator chain, `validate`,
                                         then the controller)
  * the cascading Philippine address picker component.

External libraries (bcrypt, jsonwebtoken, validator.js predicates such as
`isEmail`/`isISO8601`/`normalizeEmail`, and random id generation) are modelled as an
oracle structure `ExtLib`; dates are modelled as calendar triples (no time zones),
and machine strings as Lean `String`/`List Char`.
-/

namespace PDAO

/-- JSON-ish field values used for serialized user objects. `date` and `addr`
wrap the structured values the controller copies into its response object. -/
inductive Jval where
  | null
  | str (s : String)
  | num (n : Int)
  | bool (b : Bool)
  | date (y m d : Int)
  | addr (street barangay city province region zip country ty : String)
deriving DecidableEq

/-! ## Character and string helpers -/

def toLowerStr (s : String) : String := String.mk (s.data.map Char.toLower)

def isWsChar (c : Char) : Bool := c = ' ' || c = '\t' || c = '\n' || c = '\r'

/-- `String.prototype.trim`: drop leading and trailing whitespace. -/
def trimStr (s : String) : String :=
  String.mk (((s.data.dropWhile isWsChar).reverse.dropWhile isWsChar).reverse)

/-- express-validator `.escape()`: HTML-entity replacement of `&<>"` and the quote. -/
def escapeChar (c : Char) : List Char :=
  if c = '&' then "&amp;".data
  else if c = '<' then "&lt;".data
  else if c = '>' then "&gt;".data
  else if c = '"' then "&quot;".data
  else if c = '\'' then "&#x27;".data
  else [c]

def escapeStr (s : String) : String := String.mk ((s.data.map escapeChar).flatten)

/-! ## Contact-number normalization (`User.ts`) -/

/-- `replace(/\D/g, "")`. -/
def stripNonDigits (l : List Char) : List Char := l.filter Char.isDigit

def startsWithL (pre l : List Char) : Bool := l.take pre.length = pre

/-- Pre-save hook normalization (`UserMongooseSchema.pre('save')`, User.ts 461-474):
strip non-digits; prefix "0" when not starting with "0" or "63"; rewrite a "63"
prefix of a string of length >= 12 to "0"; truncate to 11 characters. -/
def normalizeContactPreSave (l : List Char) : List Char :=
  let c1 := stripNonDigits l
  let c2 := if !startsWithL ['0'] c1 && !startsWithL ['6', '3'] c1 then '0' :: c1 else c1
  let c3 := if startsWithL ['6', '3'] c2 && decide (c2.length ≥ 12) then '0' :: c2.drop 2 else c2
  if c3.length > 11 then c3.take 11 else c3

/-- Phone part of `transformForMongoose` (User.ts 568-578): strip non-digits;
rewrite a "63" prefix of length >= 12 to "0"; prefix "0" when not starting with
"0" and of length 10; `substring(0, 11)`. -/
def transformPhone (l : List Char) : List Char :=
  let p1 := stripNonDigits l
  let p2 := if startsWithL ['6', '3'] p1 && decide (p1.length ≥ 12) then '0' :: p1.drop 2 else p1
  let p3 := if !startsWithL ['0'] p2 && decide (p2.length = 10) then '0' :: p2 else p2
  p3.take 11

/-- The regex `^09\d{9}$` used by the Zod schema, the express-validator chain and
the Mongoose field validator: 11 characters, starting "09", all digits. -/
def matches09 (l : List Char) : Bool :=
  l.length = 11 && l.take 2 = ['0', '9'] && l.all Char.isDigit

/-- Mongoose `contact_number` field validator (User.ts 349-355):
`/^09\d{9}$/.test(v) && v.length === 11`. -/
def contactValidator (l : List Char) : Bool := matches09 l && l.length = 11

/-! ## Dates and the age computation -/

/-- A calendar date. JavaScript `getMonth()` is 0-based; we use 1-based months
throughout (both for the saved date and the current date), which preserves every
month difference and comparison the code performs. -/
structure SDate where
  year : Int
  month : Int
  day : Int
deriving DecidableEq

/-- Age computation of the second pre-save hook (User.ts 441-454):
`age = today.getFullYear() - birth.getFullYear()`, decremented when
`monthDiff < 0 || (monthDiff === 0 && today.getDate() < birth.getDate())`. -/
def computeAge (today birth : SDate) : Int :=
  let age := today.year - birth.year
  let monthDiff := today.month - birth.month
  if monthDiff < 0 ∨ (monthDiff = 0 ∧ today.day < birth.day) then age - 1 else age

/-- The specification's description of the derived age: the whole number of years
between birth and today, decremented by one when today's month/day precedes the
birth month/day (lexicographic comparison on (month, day)). -/
def specAgeYears (today birth : SDate) : Int :=
  today.year - birth.year -
    (if today.month < birth.month ∨ (today.month = birth.month ∧ today.day < birth.day)
     then 1 else 0)

/-- Digits of `"YYYY-MM-DD"` to a number. -/
def parseNatL (l : List Char) : Nat :=
  l.foldl (fun a c => 10 * a + (c.toNat - 48)) 0

/-- `new Date("YYYY-MM-DD")` restricted to the calendar triple it denotes. -/
def parseDateStr (s : String) : SDate :=
  ⟨(parseNatL (s.data.take 4) : Nat), (parseNatL ((s.data.drop 5).take 2) : Nat),
   (parseNatL ((s.data.drop 8).take 2) : Nat)⟩

/-- The Zod regex `^\d{4}-\d{2}-\d{2}$` for `date_of_birth`. -/
def dobRegexOk (s : String) : Bool :=
  match s.data with
  | [y1, y2, y3, y4, h1, m1, m2, h2, d1, d2] =>
      [y1, y2, y3, y4].all Char.isDigit && h1 = '-' && [m1, m2].all Char.isDigit &&
        h2 = '-' && [d1, d2].all Char.isDigit
  | _ => false

/-! ## Enumerations and records of the user model -/

inductive Role where
  | User | Admin | Supervisor | Staff
deriving DecidableEq

inductive UStatus where
  | Active | Inactive | Suspended | Pending
deriving DecidableEq

inductive AddrType where
  | Permanent | Temporary | Present
deriving DecidableEq

inductive Sex where
  | Male | Female | Other
deriving DecidableEq

structure AddressRec where
  street : String
  barangay : String
  city_municipality : String
  province : String
  region : String
  zip_code : String
  country : String
  type : AddrType
deriving DecidableEq

/-- A persisted user document (Mongoose `IUser`, without timestamps). -/
structure MongooseUser where
  oid : String
  user_id : String
  form_id : Option String
  first_name : String
  middle_name : String
  last_name : String
  suffix : String
  sex : Sex
  age : Int
  date_of_birth : SDate
  address : AddressRec
  contact_number : List Char
  email : String
  password : String
  role : Role
  status : UStatus
  is_verified : Bool
  is_email_verified : Bool
deriving DecidableEq

/-- The Zod `UserRegisterSchema` output (the picked fields only: a parsed payload
can never carry `role`, `status`, `form_id` or verification flags). -/
structure UserRegister where
  first_name : String
  middle_name : String
  last_name : String
  suffix : String
  sex : Sex
  date_of_birth : String
  address : AddressRec
  contact_number : String
  email : String
  password : String
deriving DecidableEq

/-- External collaborators: validator.js predicates and sanitizers, bcrypt, and
the random identifier generators.  The code delegates these wholesale, so they
are oracle parameters of the embedding. -/
structure ExtLib where
  isEmail : String → Bool
  isISO8601 : String → Bool
  isFutureDate : String → Bool
  normalizeEmail : String → String
  bhash : String → String
  bcompare : String → String → Bool
  genUserId : String
  genObjectId : String

/-! ## Pre-save hooks and persistence mapping (`User.ts`) -/

/-- The age/phone pre-save hook (User.ts 437-475): recompute `age` from
`date_of_birth` and canonicalize `contact_number`; runs on every save. -/
def preSaveRecalc (today : SDate) (u : MongooseUser) : MongooseUser :=
  { u with age := computeAge today u.date_of_birth,
           contact_number := normalizeContactPreSave u.contact_number }

/-- Both pre-save hooks as run at document creation: the password is always
newly modified there, so the bcrypt hashing hook applies, then the recompute
hook. -/
def preSaveTransform (ext : ExtLib) (today : SDate) (u : MongooseUser) : MongooseUser :=
  preSaveRecalc today { u with password := ext.bhash u.password }

/-- Mongoose `email` field setters `lowercase: true, trim: true` (User.ts 362-368). -/
def mongooseEmailSet (e : String) : String := trimStr (toLowerStr e)

/-- `transformForMongoose` (User.ts 549-581) combined with the Mongoose schema
defaults that apply to a fresh document: `form_id` is deleted and set to `null`,
`date_of_birth` is coerced to a date, the phone is canonicalized; `role`,
`status` and the verification flags take their schema defaults, identifiers are
generated. -/
def transformForMongoose (ext : ExtLib) (r : UserRegister) : MongooseUser :=
  { oid := ext.genObjectId
    user_id := ext.genUserId
    form_id := none
    first_name := r.first_name
    middle_name := r.middle_name
    last_name := r.last_name
    suffix := r.suffix
    sex := r.sex
    age := 0
    date_of_birth := parseDateStr r.date_of_birth
    address := r.address
    contact_number := transformPhone r.contact_number.data
    email := r.email
    password := r.password
    role := Role.User
    status := UStatus.Pending
    is_verified := false
    is_email_verified := false }

/-- The explicit overrides of the register controller (authController 170-176):
`form_id`, the verification flags, `status` and `role` are forced regardless of
the incoming data. -/
def registerForce (m : MongooseUser) : MongooseUser :=
  { m with form_id := none, is_verified := false, is_email_verified := false,
           status := UStatus.Pending, role := Role.User }

/-- `UserModel.create`: apply the email field setters and the pre-save hooks. -/
def mongooseCreate (ext : ExtLib) (today : SDate) (m : MongooseUser) : MongooseUser :=
  preSaveTransform ext today { m with email := mongooseEmailSet m.email }

/-! ## Request payloads -/

structure AddressPayload where
  street : Option String
  barangay : Option String
  city_municipality : Option String
  province : Option String
  region : Option String
  zip_code : Option String
  country : Option String
  type : Option String
deriving DecidableEq

/-- A raw registration request body.  `form_id` carries an arbitrary JSON value
when the key is present; `role`, `status` and the verification flags model a
client attempting to pre-set privileged fields (no layer ever reads them). -/
structure RegisterPayload where
  first_name : Option String
  middle_name : Option String
  last_name : Option String
  suffix : Option String
  sex : Option String
  date_of_birth : Option String
  address : Option AddressPayload
  contact_number : Option String
  email : Option String
  password : Option String
  form_id : Option Jval
  role : Option String
  status : Option String
  is_verified : Option Bool
  is_email_verified : Option Bool
deriving DecidableEq

structure FieldErr where
  field : String
  message : String
deriving DecidableEq

/-! ## express-validator layer (`authValidators.ts`)

Validators in a chain run on the value as sanitized so far; a missing field
reads as `undefined`, which the library's validators stringify to `""`.
`.optional()` without options only skips `undefined` values, and `.default(d)`
is a sanitizer that replaces a missing value with `d` before later validators
run (hence a defaulted value is still validated by the rest of its chain). -/

def lenBetween (lo hi : Nat) (s : String) : Bool := lo ≤ s.length && s.length ≤ hi

def suffixValues : List String := ["Jr.", "Sr.", "II", "III", "IV", "V", ""]

def sexValues : List String := ["Male", "Female", "Other"]

def addrTypeValues : List String := ["Permanent", "Temporary", "Present"]

def evFirstName (v : Option String) : List FieldErr :=
  let s := v.getD ""
  (if s = "" then [⟨"first_name", "First name is required"⟩] else []) ++
  (if lenBetween 1 50 s then [] else [⟨"first_name", "First name must be 1-50 characters"⟩])

def evMiddleName (v : Option String) : List FieldErr :=
  let s := v.getD ""
  if s.length ≤ 50 then [] else [⟨"middle_name", "Middle name cannot exceed 50 characters"⟩]

def evLastName (v : Option String) : List FieldErr :=
  let s := v.getD ""
  (if s = "" then [⟨"last_name", "Last name is required"⟩] else []) ++
  (if lenBetween 1 50 s then [] else [⟨"last_name", "Last name must be 1-50 characters"⟩])

def evSuffix (v : Option String) : List FieldErr :=
  let s := v.getD ""
  if suffixValues.contains s then [] else [⟨"suffix", "Invalid suffix format"⟩]

def evEmail (ext : ExtLib) (v : Option String) : List FieldErr :=
  let s := v.getD ""
  (if s = "" then [⟨"email", "Email is required"⟩] else []) ++
  (if ext.isEmail s then [] else [⟨"email", "Must be a valid email"⟩])

def evPassword (v : Option String) : List FieldErr :=
  let s := v.getD ""
  (if s = "" then [⟨"password", "Password is required"⟩] else []) ++
  (if 8 ≤ s.length then [] else [⟨"password", "Password must be at least 8 characters"⟩]) ++
  (if s.length ≤ 100 then [] else [⟨"password", "Password cannot exceed 100 characters"⟩])

def evDateOfBirth (ext : ExtLib) (v : Option String) : List FieldErr :=
  let s := v.getD ""
  (if s = "" then [⟨"date_of_birth", "Date of birth is required"⟩] else []) ++
  (if ext.isISO8601 s then [] else [⟨"date_of_birth", "Must be a valid date (YYYY-MM-DD)"⟩]) ++
  (if ext.isFutureDate s then [⟨"date_of_birth", "Date of birth cannot be in the future"⟩] else [])

def evSex (v : Option String) : List FieldErr :=
  let s := v.getD ""
  (if s = "" then [⟨"sex", "Sex is required"⟩] else []) ++
  (if sexValues.contains s then [] else [⟨"sex", "Invalid sex value"⟩])

def evContactNumber (v : Option String) : List FieldErr :=
  let s := v.getD ""
  (if s = "" then [⟨"contact_number", "Contact number is required"⟩] else []) ++
  (if matches09 s.data then []
   else [⟨"contact_number",
          "Phone number must be exactly 11 digits starting with 09 (09XXXXXXXXX)"⟩]) ++
  (if lenBetween 11 11 s then [] else [⟨"contact_number", "Phone number must be exactly 11 characters"⟩])

def evAddrField (path : String) (maxLen : Nat) (requiredMsg maxMsg : String)
    (v : Option String) : List FieldErr :=
  let s := v.getD ""
  (if s = "" then [⟨path, requiredMsg⟩] else []) ++
  (if s.length ≤ maxLen then [] else [⟨path, maxMsg⟩])

/-- The digit-only 4-character ZIP regex `^\d{4}$`. -/
def zip4 (l : List Char) : Bool := l.length = 4 && l.all Char.isDigit

/-- `body("address.zip_code").optional().default("").matches(/^\d{4}$/)`: the
`default("")` sanitizer replaces a missing value, after which the regex
validator still runs — so an omitted ZIP is validated as `""`. -/
def evZipCode (v : Option String) : List FieldErr :=
  let s := v.getD ""
  if zip4 s.data then [] else [⟨"address.zip_code", "ZIP code must be 4 digits"⟩]

def evAddrTypeField (v : Option String) : List FieldErr :=
  let s := v.getD "Permanent"
  if addrTypeValues.contains s then []
  else [⟨"address.type", "Address type must be Permanent, Temporary, or Present"⟩]

/-- `body("form_id").optional().custom(() => { throw ... })`: skipped only when
the key is absent; any present value (including `null`) raises the error. -/
def evFormId (v : Option Jval) : List FieldErr :=
  match v with
  | none => []
  | some _ => [⟨"form_id", "form_id cannot be set during registration"⟩]

/-- All errors of `registerValidator`, in chain order. -/
def registerValidatorErrors (ext : ExtLib) (p : RegisterPayload) : List FieldErr :=
  evFirstName p.first_name ++ evMiddleName p.middle_name ++ evLastName p.last_name ++
  evSuffix p.suffix ++ evEmail ext p.email ++ evPassword p.password ++
  evDateOfBirth ext p.date_of_birth ++ evSex p.sex ++ evContactNumber p.contact_number ++
  evAddrField "address.street" 200 "Street is required" "Street cannot exceed 200 characters"
    (p.address.bind (·.street)) ++
  evAddrField "address.barangay" 100 "Barangay is required" "Barangay cannot exceed 100 characters"
    (p.address.bind (·.barangay)) ++
  evAddrField "address.city_municipality" 100 "City/Municipality is required"
    "City/Municipality cannot exceed 100 characters" (p.address.bind (·.city_municipality)) ++
  evAddrField "address.province" 100 "Province is required" "Province cannot exceed 100 characters"
    (p.address.bind (·.province)) ++
  evAddrField "address.region" 100 "Region is required" "Region cannot exceed 100 characters"
    (p.address.bind (·.region)) ++
  evZipCode (p.address.bind (·.zip_code)) ++
  evAddrTypeField (p.address.bind (·.type)) ++
  evFormId p.form_id

/-- Errors of `loginValidator`. -/
def loginValidatorErrors (ext : ExtLib) (email password : Option String) : List FieldErr :=
  (let s := email.getD ""
   (if s = "" then [⟨"email", "Email is required"⟩] else []) ++
   (if ext.isEmail s then [] else [⟨"email", "Must be a valid email"⟩])) ++
  (if password.getD "" = "" then [⟨"password", "Password is required"⟩] else [])

/-- The email sanitizer chain `.normalizeEmail().toLowerCase().trim()`. -/
def sanitizeEmail (ext : ExtLib) (e : String) : String :=
  trimStr (toLowerStr (ext.normalizeEmail e))

/-- The free-text sanitizer chain `.trim().escape()`. -/
def sanitizeName (s : String) : String := escapeStr (trimStr s)

/-- The request body after the express-validator sanitizers ran (sanitized and
defaulted values are written back into `req.body`, which the Zod layer then
parses). -/
def sanitizeBody (ext : ExtLib) (p : RegisterPayload) : RegisterPayload :=
  { p with
    first_name := some (sanitizeName (p.first_name.getD ""))
    middle_name := some (sanitizeName (p.middle_name.getD ""))
    last_name := some (sanitizeName (p.last_name.getD ""))
    suffix := some (sanitizeName (p.suffix.getD ""))
    email := some (sanitizeEmail ext (p.email.getD ""))
    contact_number := some (trimStr (p.contact_number.getD ""))
    address := some
      { street := some (sanitizeName ((p.address.bind (·.street)).getD ""))
        barangay := some (sanitizeName ((p.address.bind (·.barangay)).getD ""))
        city_municipality := some (sanitizeName ((p.address.bind (·.city_municipality)).getD ""))
        province := some (sanitizeName ((p.address.bind (·.province)).getD ""))
        region := some (sanitizeName ((p.address.bind (·.region)).getD ""))
        zip_code := some (trimStr ((p.address.bind (·.zip_code)).getD ""))
        country := some (trimStr ((p.address.bind (·.country)).getD "Philippines"))
        type := some ((p.address.bind (·.type)).getD "Permanent") } }

/-! ## Zod layer (`User.ts` schemas)

Zod's `.optional().default(d)` substitutes `d` for a missing value and then
parses `d` with the inner schema (ZodDefault delegates to its inner type), so
string checks still apply to the default. Unknown keys are stripped by
`UserRegisterSchema.pick`, which is why the parsed record has no `role`,
`status`, `form_id` or verification fields at all. -/

def zcollect {α : Type} (x : Except (List FieldErr) α) : List FieldErr :=
  match x with
  | .ok _ => []
  | .error e => e

def zget {α : Type} (dflt : α) (x : Except (List FieldErr) α) : α :=
  match x with
  | .ok a => a
  | .error _ => dflt

def zodRequiredString (path : String) (minLen maxLen : Nat) (minMsg maxMsg : String)
    (v : Option String) : Except (List FieldErr) String :=
  match v with
  | none => .error [⟨path, "Required"⟩]
  | some s =>
      let es := (if minLen ≤ s.length then [] else [⟨path, minMsg⟩]) ++
                (if s.length ≤ maxLen then [] else [⟨path, maxMsg⟩])
      if es = [] then .ok s else .error es

def zodMiddleName (v : Option String) : Except (List FieldErr) String :=
  let s := v.getD ""
  if s.length ≤ 50 then .ok s
  else .error [⟨"middle_name", "Middle name cannot exceed 50 characters"⟩]

def zodSuffix (v : Option String) : Except (List FieldErr) String :=
  let s := v.getD ""
  if suffixValues.contains s then .ok s else .error [⟨"suffix", "Invalid enum value"⟩]

def zodSex (v : Option String) : Except (List FieldErr) Sex :=
  match v with
  | none => .ok Sex.Other
  | some "Male" => .ok Sex.Male
  | some "Female" => .ok Sex.Female
  | some "Other" => .ok Sex.Other
  | some _ => .error [⟨"sex", "Invalid enum value"⟩]

def zodDob (ext : ExtLib) (v : Option String) : Except (List FieldErr) String :=
  match v with
  | none => .error [⟨"date_of_birth", "Required"⟩]
  | some s =>
      let es := (if dobRegexOk s then [] else [⟨"date_of_birth", "Date must be in YYYY-MM-DD format"⟩]) ++
                (if ext.isFutureDate s then [⟨"date_of_birth", "Date of birth cannot be in the future"⟩] else [])
      if es = [] then .ok s else .error es

def zodContact (v : Option String) : Except (List FieldErr) String :=
  match v with
  | none => .error [⟨"contact_number", "Required"⟩]
  | some s =>
      let es := (if 11 ≤ s.length then []
                 else [⟨"contact_number", "Phone number must be 11 characters (09XXXXXXXXX)"⟩]) ++
                (if s.length ≤ 11 then []
                 else [⟨"contact_number", "Phone number must be 11 characters (09XXXXXXXXX)"⟩]) ++
                (if matches09 s.data then []
                 else [⟨"contact_number", "Phone number must start with 09 and have 11 digits total"⟩])
      if es = [] then .ok s else .error es

def zodEmail (ext : ExtLib) (v : Option String) : Except (List FieldErr) String :=
  match v with
  | none => .error [⟨"email", "Required"⟩]
  | some s =>
      let es := (if ext.isEmail s then [] else [⟨"email", "Invalid email format"⟩]) ++
                (if s.length ≤ 100 then [] else [⟨"email", "Email cannot exceed 100 characters"⟩])
      if es = [] then .ok s else .error es

def zodPassword (v : Option String) : Except (List FieldErr) String :=
  match v with
  | none => .error [⟨"password", "Required"⟩]
  | some s =>
      let es := (if 8 ≤ s.length then [] else [⟨"password", "Password must be at least 8 characters"⟩]) ++
                (if s.length ≤ 100 then [] else [⟨"password", "Password cannot exceed 100 characters"⟩])
      if es = [] then .ok s else .error es

/-- The ZIP field `z.string().regex(/^\d{4}$/).optional().default("")`: a missing
value becomes `""`, which is then still checked against the regex. -/
def zodZipParse (v : Option String) : Except (List FieldErr) String :=
  let d := v.getD ""
  if zip4 d.data then .ok d else .error [⟨"address.zip_code", "ZIP code must be 4 digits"⟩]

def zodAddrType (v : Option String) : Except (List FieldErr) AddrType :=
  match v.getD "Permanent" with
  | "Permanent" => .ok AddrType.Permanent
  | "Temporary" => .ok AddrType.Temporary
  | "Present" => .ok AddrType.Present
  | _ => .error [⟨"address.type", "Invalid enum value"⟩]

def zodParseAddress (v : Option AddressPayload) : Except (List FieldErr) AddressRec :=
  match v with
  | none => .error [⟨"address", "Required"⟩]
  | some a =>
      let st := zodRequiredString "address.street" 1 200 "Street is required"
        "String must contain at most 200 character(s)" a.street
      let bg := zodRequiredString "address.barangay" 1 100 "Barangay is required"
        "String must contain at most 100 character(s)" a.barangay
      let ct := zodRequiredString "address.city_municipality" 1 100 "City/Municipality is required"
        "String must contain at most 100 character(s)" a.city_municipality
      let pv := zodRequiredString "address.province" 1 100 "Province is required"
        "String must contain at most 100 character(s)" a.province
      let rg := zodRequiredString "address.region" 1 100 "Region is required"
        "String must contain at most 100 character(s)" a.region
      let zp := zodZipParse a.zip_code
      let ty := zodAddrType a.type
      let errs := zcollect st ++ zcollect bg ++ zcollect ct ++ zcollect pv ++ zcollect rg ++
        zcollect zp ++ zcollect ty
      if errs = [] then
        .ok { street := zget "" st, barangay := zget "" bg, city_municipality := zget "" ct,
              province := zget "" pv, region := zget "" rg, zip_code := zget "" zp,
              country := a.country.getD "Philippines", type := zget AddrType.Permanent ty }
      else .error errs

/-- `UserRegisterSchema.parse` (`validateUserRegister`). -/
def zodParseRegister (ext : ExtLib) (p : RegisterPayload) : Except (List FieldErr) UserRegister :=
  let fn := zodRequiredString "first_name" 1 50 "First name is required"
    "First name cannot exceed 50 characters" p.first_name
  let mn := zodMiddleName p.middle_name
  let ln := zodRequiredString "last_name" 1 50 "Last name is required"
    "Last name cannot exceed 50 characters" p.last_name
  let sx := zodSuffix p.suffix
  let se := zodSex p.sex
  let db := zodDob ext p.date_of_birth
  let ad := zodParseAddress p.address
  let cn := zodContact p.contact_number
  let em := zodEmail ext p.email
  let pw := zodPassword p.password
  let errs := zcollect fn ++ zcollect mn ++ zcollect ln ++ zcollect sx ++ zcollect se ++
    zcollect db ++ zcollect ad ++ zcollect cn ++ zcollect em ++ zcollect pw
  if errs = [] then
    .ok { first_name := zget "" fn, middle_name := zget "" mn, last_name := zget "" ln,
          suffix := zget "" sx, sex := zget Sex.Other se, date_of_birth := zget "" db,
          address := zget ⟨"", "", "", "", "", "", "", AddrType.Permanent⟩ ad,
          contact_number := zget "" cn, email := zget "" em, password := zget "" pw }
  else .error errs

/-! ## HTTP responses and controllers -/

structure Response where
  status : Nat
  success : Bool
  message : String
  field : Option String
  errors : List FieldErr
  user : Option (List (String × Jval))
  token : Option (String × Role)
deriving DecidableEq

def sexStr : Sex → String
  | Sex.Male => "Male"
  | Sex.Female => "Female"
  | Sex.Other => "Other"

def roleStr : Role → String
  | Role.User => "User"
  | Role.Admin => "Admin"
  | Role.Supervisor => "Supervisor"
  | Role.Staff => "Staff"

def statusStr : UStatus → String
  | UStatus.Active => "Active"
  | UStatus.Inactive => "Inactive"
  | UStatus.Suspended => "Suspended"
  | UStatus.Pending => "Pending"

def addrTypeStr : AddrType → String
  | AddrType.Permanent => "Permanent"
  | AddrType.Temporary => "Temporary"
  | AddrType.Present => "Present"

def jAddr (a : AddressRec) : Jval :=
  Jval.addr a.street a.barangay a.city_municipality a.province a.region a.zip_code a.country
    (addrTypeStr a.type)

def jDate (d : SDate) : Jval := Jval.date d.year d.month d.day

/-- The register controller's response object (authController 193-213); server
timestamps are not modelled and appear as `null`. -/
def regUserResponse (u : MongooseUser) : List (String × Jval) :=
  [("_id", Jval.str u.oid), ("user_id", Jval.str u.user_id),
   ("first_name", Jval.str u.first_name), ("middle_name", Jval.str u.middle_name),
   ("last_name", Jval.str u.last_name), ("suffix", Jval.str u.suffix),
   ("sex", Jval.str (sexStr u.sex)), ("age", Jval.num u.age),
   ("date_of_birth", jDate u.date_of_birth), ("address", jAddr u.address),
   ("contact_number", Jval.str (String.mk u.contact_number)), ("email", Jval.str u.email),
   ("role", Jval.str (roleStr u.role)), ("status", Jval.str (statusStr u.status)),
   ("is_verified", Jval.bool u.is_verified), ("is_email_verified", Jval.bool u.is_email_verified),
   ("created_at", Jval.null), ("updated_at", Jval.null)]

/-- The login controller's response object (authController 385-406): the same
fields plus `form_id`. -/
def loginUserResponse (u : MongooseUser) : List (String × Jval) :=
  [("_id", Jval.str u.oid), ("user_id", Jval.str u.user_id),
   ("form_id", (u.form_id.map Jval.str).getD Jval.null),
   ("first_name", Jval.str u.first_name), ("middle_name", Jval.str u.middle_name),
   ("last_name", Jval.str u.last_name), ("suffix", Jval.str u.suffix),
   ("sex", Jval.str (sexStr u.sex)), ("age", Jval.num u.age),
   ("date_of_birth", jDate u.date_of_birth), ("address", jAddr u.address),
   ("contact_number", Jval.str (String.mk u.contact_number)), ("email", Jval.str u.email),
   ("role", Jval.str (roleStr u.role)), ("status", Jval.str (statusStr u.status)),
   ("is_verified", Jval.bool u.is_verified), ("is_email_verified", Jval.bool u.is_email_verified),
   ("created_at", Jval.null), ("updated_at", Jval.null)]

def validationFailedResponse (errs : List FieldErr) : Response :=
  ⟨400, false, "Validation failed", none, errs, none, none⟩

/-- The dedicated response of the `validate` middleware when any recorded error
concerns `form_id` (authValidators 369-391). -/
def dedicatedFormIdResponse : Response :=
  ⟨400, false, "Invalid registration data", none,
   [⟨"form_id", "form_id is automatically generated and cannot be provided"⟩], none, none⟩

def dupEmailResponse : Response :=
  ⟨400, false,
   "This email is already registered. Please use a different email or try logging in.",
   some "email", [], none, none⟩

def dupContactResponse : Response :=
  ⟨400, false, "This contact number is already registered. Please use a different number.",
   some "contact_number", [], none, none⟩

/-- `POST /api/auth/register`: `registerValidator`, `validate`, then the
controller (Zod parse, duplicate lookups, `transformForMongoose`, forced
defaults, `UserModel.create`).  Returns the response and the database after the
request. -/
def registerRoute (ext : ExtLib) (today : SDate) (db : List MongooseUser)
    (p : RegisterPayload) : Response × List MongooseUser :=
  let errs := registerValidatorErrors ext p
  if errs = [] then
    match zodParseRegister ext (sanitizeBody ext p) with
    | .error zerrs => (validationFailedResponse zerrs, db)
    | .ok userData =>
        if db.any (fun u => u.email == userData.email) then (dupEmailResponse, db)
        else if db.any (fun u => u.contact_number == userData.contact_number.data) then
          (dupContactResponse, db)
        else
          let stored := mongooseCreate ext today (registerForce (transformForMongoose ext userData))
          (⟨201, true,
            "Registration successful! Please check your email for verification instructions.",
            none, [], some (regUserResponse stored), some (stored.oid, stored.role)⟩,
           db ++ [stored])
  else if errs.any (fun e => e.field == "form_id") then (dedicatedFormIdResponse, db)
  else (validationFailedResponse errs, db)

def suspendedMessage : String := "Your account has been suspended. Please contact support."

def inactiveMessage : String := "Your account is inactive. Please contact support."

def invalidCredMessage : String := "Invalid email or password"

/-- The login controller (authController 322-443) after Zod validation:
lookup, status check, password check, `Pending → Active` transition and save,
token issuance. -/
def loginCtrl (ext : ExtLib) (today : SDate) (db : List MongooseUser)
    (email password : String) : Response × List MongooseUser :=
  match db.find? (fun u => u.email == email) with
  | none => (⟨401, false, invalidCredMessage, some "email", [], none, none⟩, db)
  | some user =>
      if user.status = UStatus.Suspended then
        (⟨403, false, suspendedMessage, none, [], none, none⟩, db)
      else if user.status = UStatus.Inactive then
        (⟨403, false, inactiveMessage, none, [], none, none⟩, db)
      else if !(ext.bcompare password user.password) then
        (⟨401, false, invalidCredMessage, some "password", [], none, none⟩, db)
      else
        let u1 := { user with
          status := if user.status = UStatus.Pending then UStatus.Active else user.status }
        let u2 := preSaveRecalc today u1
        (⟨200, true, "Login successful", none, [], some (loginUserResponse u2),
          some (user.oid, user.role)⟩,
         db.map (fun v => if v == user then u2 else v))

/-- `POST /api/auth/login`: `loginValidator` (with its email sanitizer chain),
`validate`, `UserLoginSchema.parse`, then the controller. -/
def loginRoute (ext : ExtLib) (today : SDate) (db : List MongooseUser)
    (email password : Option String) : Response × List MongooseUser :=
  let errs := loginValidatorErrors ext email password
  if errs = [] then
    let e := sanitizeEmail ext (email.getD "")
    let pw := password.getD ""
    let zerrs := (if ext.isEmail e then [] else [⟨"email", "Invalid email format"⟩]) ++
                 (if 1 ≤ pw.length then [] else [⟨"password", "Password is required"⟩])
    if zerrs = [] then loginCtrl ext today db e pw
    else (validationFailedResponse zerrs, db)
  else (validationFailedResponse errs, db)

/-! ## Serialization helpers -/

def deleteKey (k : String) (u : List (String × Jval)) : List (String × Jval) :=
  u.filter (fun kv => kv.1 != k)

/-- `UserMongooseSchema.methods.toJSON` (User.ts 485-490): `delete password`,
`delete __v`. -/
def toJSON (u : List (String × Jval)) : List (String × Jval) :=
  deleteKey "__v" (deleteKey "password" u)

/-- `HybridValidator.sanitizeUser` (utils/validation.ts): destructures away
`password` and `__v`. -/
def sanitizeUser (u : List (String × Jval)) : List (String × Jval) :=
  deleteKey "__v" (deleteKey "password" u)

/-- `DataTransformer.toPlain` (utils/transform.ts): `delete __v`, `delete password`. -/
def toPlain (u : List (String × Jval)) : List (String × Jval) :=
  deleteKey "password" (deleteKey "__v" u)

/-- The key set of `UserPublicSchema` (`UserSchema.omit` of `password`,
`created_by`, `updated_by`, extended with the three display fields). -/
def publicKeys : List String :=
  ["_id", "user_id", "form_id", "first_name", "middle_name", "last_name", "suffix", "sex",
   "age", "date_of_birth", "address", "contact_number", "avatar_url", "email", "role",
   "status", "is_verified", "is_email_verified", "full_name", "age_display", "is_pwd_verified"]

def getJ (u : List (String × Jval)) (k : String) : Option Jval :=
  (u.find? (fun kv => kv.1 == k)).map (·.2)

def getStr (u : List (String × Jval)) (k : String) : String :=
  match getJ u k with
  | some (Jval.str s) => s
  | _ => ""

/-- `sanitizeUserForPublic` (User.ts 516-546): `UserPublicSchema.parse` strips
every key outside the schema (in particular `password`), then the display
fields are appended.  Parse failures are not modelled; the embedding covers the
field stripping and the derived display values. -/
def sanitizeUserForPublic (today : SDate) (u : List (String × Jval)) : List (String × Jval) :=
  let age : Int :=
    match getJ u "date_of_birth" with
    | some (Jval.date y m d) => computeAge today ⟨y, m, d⟩
    | _ => 0
  let mn := getStr u "middle_name"
  let sx := getStr u "suffix"
  let fullName := trimStr (getStr u "first_name" ++ " " ++
    (if mn = "" then "" else mn ++ " ") ++ getStr u "last_name" ++
    (if sx = "" then "" else " " ++ sx))
  (u.filter (fun kv => publicKeys.contains kv.1)) ++
  [("age_display", Jval.str (toString age ++ " years")),
   ("full_name", Jval.str fullName),
   ("is_pwd_verified", (getJ u "is_verified").getD Jval.null)]

/-! ## Cascading address picker (client component) -/

structure AddrItem where
  id : String
  name : String
deriving DecidableEq

inductive PStep where
  | region | province | city | barangay
deriving DecidableEq

structure PickerState where
  step : PStep
  selectedRegion : Option AddrItem
  selectedProvince : Option AddrItem
  selectedCity : Option AddrItem
  selectedBarangay : Option AddrItem
  searchQuery : String
  regions : List AddrItem
  provinces : List AddrItem
  cities : List AddrItem
  barangays : List AddrItem
deriving DecidableEq

structure AddressResult where
  region : String
  province : String
  city : String
  barangay : String
deriving DecidableEq

/-- Result of one press handler: the new component state, the payload passed to
`onSelect` (if any), and whether `onClose` was called. -/
structure HandlerOut where
  state : PickerState
  emitted : Option AddressResult
  closed : Bool
deriving DecidableEq

def handleRegionSelect (s : PickerState) (r : AddrItem) : HandlerOut :=
  ⟨{ s with selectedRegion := some r, selectedProvince := none, selectedCity := none,
            selectedBarangay := none, provinces := [], cities := [], barangays := [],
            searchQuery := "", step := PStep.province }, none, false⟩

def handleProvinceSelect (s : PickerState) (p : AddrItem) : HandlerOut :=
  ⟨{ s with selectedProvince := some p, selectedCity := none, selectedBarangay := none,
            cities := [], barangays := [], searchQuery := "", step := PStep.city }, none, false⟩

def handleCitySelect (s : PickerState) (c : AddrItem) : HandlerOut :=
  ⟨{ s with selectedCity := some c, selectedBarangay := none, barangays := [],
            searchQuery := "", step := PStep.barangay }, none, false⟩

/-- `handleBarangaySelect`: record the selection; when region, province and city
are all selected, emit the four names and close.  The search query is not
touched. -/
def handleBarangaySelect (s : PickerState) (b : AddrItem) : HandlerOut :=
  let s1 := { s with selectedBarangay := some b }
  match s.selectedRegion, s.selectedProvince, s.selectedCity with
  | some r, some p, some c => ⟨s1, some ⟨r.name, p.name, c.name, b.name⟩, true⟩
  | _, _, _ => ⟨s1, none, false⟩

def goBack (s : PickerState) : HandlerOut :=
  ⟨{ s with
      step := match s.step with
        | PStep.barangay => PStep.city
        | PStep.city => PStep.province
        | PStep.province => PStep.region
        | PStep.region => PStep.region,
      searchQuery := "" }, none, false⟩

def resetSelection (s : PickerState) : HandlerOut :=
  ⟨{ s with selectedRegion := none, selectedProvince := none, selectedCity := none,
            selectedBarangay := none, provinces := [], cities := [], barangays := [],
            step := PStep.region, searchQuery := "" }, none, false⟩

/-- Case-insensitive substring filter of the visible level's list. -/
def nameMatches (q : String) (it : AddrItem) : Bool :=
  decide ((toLowerStr q).data <:+: (toLowerStr it.name).data)

def getFilteredData (s : PickerState) : List AddrItem :=
  let data :=
    match s.step with
    | PStep.region => s.regions
    | PStep.province => s.provinces
    | PStep.city => s.cities
    | PStep.barangay => s.barangays
  if trimStr s.searchQuery = "" then data else data.filter (nameMatches s.searchQuery)

/-! ## Concrete fixtures used by witnesses and counterexamples -/

/-- Oracle instance: external predicates accept, bcrypt is modelled by a tagged
hash with its matching comparison. -/
def ext₀ : ExtLib :=
  { isEmail := fun _ => true
    isISO8601 := fun _ => true
    isFutureDate := fun _ => false
    normalizeEmail := fun e => e
    bhash := fun s => s ++ "#hash"
    bcompare := fun a b => (a ++ "#hash") == b
    genUserId := "PDAO-20250101-AAAAA"
    genObjectId := "64f0c0ffee01" }

def today₀ : SDate := ⟨2025, 6, 15⟩

def addrPayload₀ : AddressPayload :=
  { street := some "12 Rizal St"
    barangay := some "Bonuan Binloc"
    city_municipality := some "Dagupan City"
    province := some "Pangasinan"
    region := some "Region I"
    zip_code := some "2400"
    country := none
    type := none }

/-- A fully valid registration body. -/
def payload₀ : RegisterPayload :=
  { first_name := some "Ana"
    middle_name := none
    last_name := some "Cruz"
    suffix := none
    sex := some "Female"
    date_of_birth := some "2000-01-02"
    address := some addrPayload₀
    contact_number := some "09171234567"
    email := some "ana@example.com"
    password := some "password1"
    form_id := none
    role := none
    status := none
    is_verified := none
    is_email_verified := none }

/-- The valid body with a `form_id` key whose value is `null`. -/
def payloadFormIdNull : RegisterPayload := { payload₀ with form_id := some Jval.null }

/-- The valid body whose address omits `zip_code`. -/
def payloadNoZip : RegisterPayload :=
  { payload₀ with address := some { addrPayload₀ with zip_code := none } }

def addr₀ : AddressRec :=
  { street := "12 Rizal St", barangay := "Bonuan Binloc", city_municipality := "Dagupan City",
    province := "Pangasinan", region := "Region I", zip_code := "2400",
    country := "Philippines", type := AddrType.Permanent }

/-- A stored account in `Suspended` state whose password is the bcrypt image of
`"password1"` under `ext₀`. -/
def suspendedUser₀ : MongooseUser :=
  { oid := "64f0c0ffee02", user_id := "PDAO-20250101-BBBBB", form_id := none,
    first_name := "Ben", middle_name := "", last_name := "Reyes", suffix := "",
    sex := Sex.Male, age := 25, date_of_birth := ⟨2000, 1, 2⟩, address := addr₀,
    contact_number := "09170000001".data, email := "ben@example.com",
    password := "password1#hash", role := Role.User, status := UStatus.Suspended,
    is_verified := false, is_email_verified := false }

/-- A stored account in `Active` state with the same password image. -/
def activeUser₀ : MongooseUser :=
  { suspendedUser₀ with
    oid := "64f0c0ffee03"
    user_id := "PDAO-20250101-CCCCC"
    contact_number := "09170000002".data
    email := "cara@example.com"
    status := UStatus.Active }

/-- Oracle whose email normalizer is a constant function, satisfying the
case-insensitivity property of validator.js trivially. -/
def extConst : ExtLib :=
  { ext₀ with normalizeEmail := fun _ => "fixed@example.com", isEmail := fun _ => true }

/-- Picker state at the barangay step with a live search query. -/
def pickerState₀ : PickerState :=
  { step := PStep.barangay
    selectedRegion := some ⟨"01", "Region I"⟩
    selectedProvince := some ⟨"0155", "Pangasinan"⟩
    selectedCity := some ⟨"015518", "Dagupan City"⟩
    selectedBarangay := none
    searchQuery := "bo"
    regions := [⟨"01", "Region I"⟩]
    provinces := [⟨"0155", "Pangasinan"⟩]
    cities := [⟨"015518", "Dagupan City"⟩]
    barangays := [⟨"015518001", "Bonuan Binloc"⟩] }

/-! # Theorems -/

/-- Claim C3: every contact number accepted into storage through the register
pipeline (the Zod/validator regex `^09\d{9}$` gates acceptance) is stored, after
the `transformForMongoose` phone rewrite and the pre-save normalization step
(strip non-digits; prefix "0" when not starting with "0" or "63"; rewrite a
"63" prefix of a string of length >= 12 to "0"; truncate to 11 characters),
as a value matching `^09\d{9}$` exactly, of length 11, satisfying the Mongoose
field validator. -/
theorem contact_number_stored_canonical (l : List Char) (h : matches09 l = true) :
    normalizeContactPreSave (transformPhone l) = l ∧
    matches09 (normalizeContactPreSave (transformPhone l)) = true ∧
    (normalizeContactPreSave (transformPhone l)).length = 11 ∧
    contactValidator (normalizeContactPreSave (transformPhone l)) = true := by
  have h' := h
  simp only [matches09, Bool.and_eq_true, decide_eq_true_eq, List.all_eq_true] at h'
  obtain ⟨⟨hlen, htake⟩, hdig⟩ := h'
  have hstrip : stripNonDigits l = l := by
    simp only [stripNonDigits]
    exact List.filter_eq_self.mpr hdig
  have h0 : startsWithL ['0'] l = true := by
    simp only [startsWithL, List.length_singleton, decide_eq_true_eq]
    have h1 : List.take 1 l = List.take 1 (List.take 2 l) := by
      rw [List.take_take]
      norm_num
    rw [h1, htake]
    rfl
  have h63 : startsWithL ['6', '3'] l = false := by
    simp only [startsWithL]
    have h2 : (['6', '3'] : List Char).length = 2 := rfl
    rw [h2, htake]
    decide
  have htake11 : l.take 11 = l := by
    rw [← hlen]
    exact List.take_length l
  have htp : transformPhone l = l := by
    simp only [transformPhone, hstrip, h63, h0, Bool.false_and, Bool.not_true,
      Bool.false_eq_true, if_false]
    exact htake11
  have hnp : normalizeContactPreSave l = l := by
    simp only [normalizeContactPreSave, hstrip, h63, h0, Bool.not_true, Bool.false_and,
      Bool.and_false, Bool.false_eq_true, if_false, hlen]
    simp
  rw [htp, hnp]
  refine ⟨rfl, h, hlen, ?_⟩
  simp [contactValidator, h, hlen]

/-- Witness for C3 at the concrete number "09171234567". -/
theorem contact_number_stored_canonical_witness :
    matches09 "09171234567".data = true ∧
    normalizeContactPreSave (transformPhone "09171234567".data) = "09171234567".data :=
  ⟨by decide, (contact_number_stored_canonical "09171234567".data (by decide)).1⟩

/-- Claim C4: at every save, the persisted age is recomputed from
`date_of_birth` as the whole-year difference to the save date, decremented by
one when the save month/day precedes the birth month/day, overriding whatever
age the record carried before; the boundary evaluations cover a birthday on the
save date, a birthday the next day, and a Feb-29 birth date against a non-leap
year. -/
theorem age_recomputed_at_save :
    (∀ (ext : ExtLib) (today : SDate) (u : MongooseUser) (a : Int),
        (preSaveTransform ext today { u with age := a }).age =
          specAgeYears today u.date_of_birth) ∧
    computeAge ⟨2025, 6, 15⟩ ⟨2000, 6, 15⟩ = 25 ∧
    computeAge ⟨2025, 6, 15⟩ ⟨2000, 6, 16⟩ = 24 ∧
    computeAge ⟨2025, 3, 1⟩ ⟨2004, 2, 29⟩ = 21 ∧
    computeAge ⟨2025, 2, 28⟩ ⟨2004, 2, 29⟩ = 20 := by
  refine ⟨?_, by decide, by decide, by decide, by decide⟩
  intro ext today u a
  simp only [preSaveTransform, preSaveRecalc, computeAge, specAgeYears]
  split_ifs <;> omega

/-- Claim C1: whenever the register endpoint accepts a request (201), the record
appended to the database has `form_id = null`, `status = "Pending"`,
`role = "User"`, `is_verified = false` and `is_email_verified = false` — the
payload's own `role`/`status`/flag fields are never consulted anywhere in the
pipeline. -/
theorem register_forces_protected_defaults (ext : ExtLib) (today : SDate)
    (db : List MongooseUser) (p : RegisterPayload) (resp : Response)
    (db2 : List MongooseUser) (hEq : registerRoute ext today db p = (resp, db2))
    (h201 : resp.status = 201) :
    ∃ u, db2 = db ++ [u] ∧ u.form_id = none ∧ u.status = UStatus.Pending ∧
      u.role = Role.User ∧ u.is_verified = false ∧ u.is_email_verified = false := by
  unfold registerRoute at hEq
  by_cases h1 : registerValidatorErrors ext p = []
  · rw [if_pos h1] at hEq
    rcases hz : zodParseRegister ext (sanitizeBody ext p) with zerrs | userData <;>
      rw [hz] at hEq <;> dsimp only [] at hEq
    · injection hEq with ha hb
      subst ha
      simp only [validationFailedResponse] at h201
      omega
    · by_cases h2 : (db.any fun u => u.email == userData.email) = true
      · rw [if_pos h2] at hEq
        injection hEq with ha hb
        subst ha
        simp only [dupEmailResponse] at h201
        omega
      · rw [if_neg h2] at hEq
        by_cases h3 : (db.any fun u => u.contact_number == userData.contact_number.data) = true
        · rw [if_pos h3] at hEq
          injection hEq with ha hb
          subst ha
          simp only [dupContactResponse] at h201
          omega
        · rw [if_neg h3] at hEq
          injection hEq with ha hb
          subst ha
          subst hb
          exact ⟨_, rfl, rfl, rfl, rfl, rfl, rfl⟩
  · rw [if_neg h1] at hEq
    by_cases h4 : ((registerValidatorErrors ext p).any fun e => e.field == "form_id") = true
    · rw [if_pos h4] at hEq
      injection hEq with ha hb
      subst ha
      simp only [dedicatedFormIdResponse] at h201
      omega
    · rw [if_neg h4] at hEq
      injection hEq with ha hb
      subst ha
      simp only [validationFailedResponse] at h201
      omega

set_option maxRecDepth 10000 in
/-- Witness for C1: the concrete valid payload is accepted and stored with the
forced defaults. -/
theorem register_forces_protected_defaults_witness :
    ∃ u, (registerRoute ext₀ today₀ [] payload₀).2 = [] ++ [u] ∧
      u.form_id = none ∧ u.status = UStatus.Pending ∧ u.role = Role.User ∧
      u.is_verified = false ∧ u.is_email_verified = false :=
  register_forces_protected_defaults ext₀ today₀ [] payload₀
    (registerRoute ext₀ today₀ [] payload₀).1 (registerRoute ext₀ today₀ [] payload₀).2
    rfl (by decide)

/-- Claim C2: a registration payload that contains a `form_id` key — whatever
its value, `null` included — receives the dedicated 400 response naming field
`form_id` with the message that `form_id` cannot be provided, and the database
is unchanged (the controller never runs). -/
theorem register_rejects_form_id_key (ext : ExtLib) (today : SDate)
    (db : List MongooseUser) (p : RegisterPayload) (v : Jval)
    (h : p.form_id = some v) :
    registerRoute ext today db p = (dedicatedFormIdResponse, db) ∧
    dedicatedFormIdResponse.status = 400 ∧
    dedicatedFormIdResponse.errors =
      [⟨"form_id", "form_id is automatically generated and cannot be provided"⟩] := by
  refine ⟨?_, rfl, rfl⟩
  have hmem : (⟨"form_id", "form_id cannot be set during registration"⟩ : FieldErr) ∈
      registerValidatorErrors ext p := by
    unfold registerValidatorErrors
    refine List.mem_append_right _ ?_
    rw [h]
    simp [evFormId]
  have hne : ¬ registerValidatorErrors ext p = [] := by
    intro h0
    rw [h0] at hmem
    exact absurd hmem (List.not_mem_nil _)
  have hany : (registerValidatorErrors ext p).any (fun e => e.field == "form_id") = true :=
    List.any_eq_true.mpr ⟨_, hmem, by decide⟩
  unfold registerRoute
  rw [if_neg hne, if_pos hany]

/-- Witness for C2 at `form_id: null`. -/
theorem register_rejects_form_id_key_witness :
    registerRoute ext₀ today₀ [] payloadFormIdNull = (dedicatedFormIdResponse, []) :=
  (register_rejects_form_id_key ext₀ today₀ [] payloadFormIdNull Jval.null rfl).1

/-- Claim C5: a login against an account whose status is `Suspended` or
`Inactive` answers 403 (not 401) with the status-specific message, no token and
no user object, and leaves the database unchanged; the result holds for every
password-comparison oracle — in particular when the submitted password is
correct — because the status check precedes the password check and is
terminal. -/
theorem login_suspended_inactive_403 (ext : ExtLib) (today : SDate)
    (db : List MongooseUser) (email password : String) (u : MongooseUser)
    (hfind : db.find? (fun v => v.email == email) = some u)
    (hstat : u.status = UStatus.Suspended ∨ u.status = UStatus.Inactive) :
    (loginCtrl ext today db email password).1.status = 403 ∧
    (loginCtrl ext today db email password).1.token = none ∧
    (loginCtrl ext today db email password).1.user = none ∧
    (u.status = UStatus.Suspended →
      (loginCtrl ext today db email password).1.message = suspendedMessage) ∧
    (u.status = UStatus.Inactive →
      (loginCtrl ext today db email password).1.message = inactiveMessage) ∧
    ¬ suspendedMessage = inactiveMessage ∧
    (loginCtrl ext today db email password).2 = db := by
  have hmsg : ¬ suspendedMessage = inactiveMessage := by decide
  unfold loginCtrl
  rw [hfind]
  rcases hstat with hs | hs <;> simp [hs, hmsg, suspendedMessage, inactiveMessage]

/-- Witness for C5: a suspended account is refused even though the submitted
password is the correct one (the comparison oracle returns `true` on it). -/
theorem login_suspended_inactive_403_witness :
    (loginCtrl ext₀ today₀ [suspendedUser₀] "ben@example.com" "password1").1.status = 403 ∧
    (loginCtrl ext₀ today₀ [suspendedUser₀] "ben@example.com" "password1").1.token = none ∧
    ext₀.bcompare "password1" suspendedUser₀.password = true :=
  ⟨(login_suspended_inactive_403 ext₀ today₀ [suspendedUser₀] "ben@example.com" "password1"
      suspendedUser₀ (by decide) (Or.inl rfl)).1,
   (login_suspended_inactive_403 ext₀ today₀ [suspendedUser₀] "ben@example.com" "password1"
      suspendedUser₀ (by decide) (Or.inl rfl)).2.1,
   by decide⟩

/-- Claim C6: an unknown-email login and a known-email/wrong-password login (on
an account that passes the status check, the only state in which the password is
examined) both answer 401 with the identical message "Invalid email or
password", and the two response bodies are equal except for the `field` value
(`"email"` versus `"password"`) — the message text never reveals whether the
account exists. -/
theorem login_401_uniform_message (ext : ExtLib) (today : SDate)
    (db : List MongooseUser) (e1 p1 e2 p2 : String) (u : MongooseUser)
    (h1 : db.find? (fun v => v.email == e1) = none)
    (h2 : db.find? (fun v => v.email == e2) = some u)
    (hs : ¬ u.status = UStatus.Suspended) (hi : ¬ u.status = UStatus.Inactive)
    (hp : ext.bcompare p2 u.password = false) :
    (loginCtrl ext today db e1 p1).1.status = 401 ∧
    (loginCtrl ext today db e2 p2).1.status = 401 ∧
    (loginCtrl ext today db e1 p1).1.message = invalidCredMessage ∧
    (loginCtrl ext today db e2 p2).1.message = (loginCtrl ext today db e1 p1).1.message ∧
    (loginCtrl ext today db e1 p1).1.field = some "email" ∧
    (loginCtrl ext today db e2 p2).1.field = some "password" ∧
    { (loginCtrl ext today db e1 p1).1 with field := some "password" } =
      (loginCtrl ext today db e2 p2).1 ∧
    (loginCtrl ext today db e1 p1).1.token = none ∧
    (loginCtrl ext today db e2 p2).1.token = none := by
  have r1 : loginCtrl ext today db e1 p1 =
      (⟨401, false, invalidCredMessage, some "email", [], none, none⟩, db) := by
    unfold loginCtrl
    rw [h1]
  have r2 : loginCtrl ext today db e2 p2 =
      (⟨401, false, invalidCredMessage, some "password", [], none, none⟩, db) := by
    unfold loginCtrl
    rw [h2]
    dsimp only []
    rw [if_neg hs, if_neg hi, hp]
    rfl
  rw [r1, r2]
  exact ⟨rfl, rfl, rfl, rfl, rfl, rfl, rfl, rfl, rfl⟩

/-- Witness for C6: unknown email versus wrong password against the concrete
active account, with equal 401 messages. -/
theorem login_401_uniform_message_witness :
    (loginCtrl ext₀ today₀ [activeUser₀] "nobody@example.com" "password1").1.status = 401 ∧
    (loginCtrl ext₀ today₀ [activeUser₀] "cara@example.com" "wrongpassword").1.status = 401 ∧
    (loginCtrl ext₀ today₀ [activeUser₀] "cara@example.com" "wrongpassword").1.message =
      (loginCtrl ext₀ today₀ [activeUser₀] "nobody@example.com" "password1").1.message := by
  have h := login_401_uniform_message ext₀ today₀ [activeUser₀] "nobody@example.com" "password1"
    "cara@example.com" "wrongpassword" activeUser₀ (by decide) (by decide) (by decide)
    (by decide) (by decide)
  exact ⟨h.1, h.2.1, h.2.2.2.1⟩

/-- Helper: the user object of a register response is absent or has exactly the
controller's explicit shape. -/
theorem registerRoute_user_cases (ext : ExtLib) (today : SDate) (db : List MongooseUser)
    (p : RegisterPayload) :
    ((registerRoute ext today db p).1).user = none ∨
    ∃ m, ((registerRoute ext today db p).1).user = some (regUserResponse m) := by
  unfold registerRoute
  by_cases h1 : registerValidatorErrors ext p = []
  · rw [if_pos h1]
    rcases hz : zodParseRegister ext (sanitizeBody ext p) with zerrs | userData <;> dsimp only []
    · left
      rfl
    · by_cases h2 : (db.any fun u => u.email == userData.email) = true
      · rw [if_pos h2]
        left
        rfl
      · rw [if_neg h2]
        by_cases h3 : (db.any fun u => u.contact_number == userData.contact_number.data) = true
        · rw [if_pos h3]
          left
          rfl
        · rw [if_neg h3]
          right
          exact ⟨_, rfl⟩
  · rw [if_neg h1]
    by_cases h4 : ((registerValidatorErrors ext p).any fun e => e.field == "form_id") = true
    · rw [if_pos h4]
      left
      rfl
    · rw [if_neg h4]
      left
      rfl

/-- Helper: the user object of a login-controller response is absent or has
exactly the controller's explicit shape. -/
theorem loginCtrl_user_cases (ext : ExtLib) (today : SDate) (db : List MongooseUser)
    (email password : String) :
    ((loginCtrl ext today db email password).1).user = none ∨
    ∃ m, ((loginCtrl ext today db email password).1).user = some (loginUserResponse m) := by
  unfold loginCtrl
  rcases hf : db.find? (fun u => u.email == email) with _ | user <;> rw [hf] <;> dsimp only []
  · left
    rfl
  · by_cases hsu : user.status = UStatus.Suspended
    · rw [if_pos hsu]
      left
      rfl
    · rw [if_neg hsu]
      by_cases hin : user.status = UStatus.Inactive
      · rw [if_pos hin]
        left
        rfl
      · rw [if_neg hin]
        cases hb : ext.bcompare password user.password
        · left
          rfl
        · right
          exact ⟨_, rfl⟩

/-- Helper: same as `loginCtrl_user_cases` through the full login route. -/
theorem loginRoute_user_cases (ext : ExtLib) (today : SDate) (db : List MongooseUser)
    (email password : Option String) :
    ((loginRoute ext today db email password).1).user = none ∨
    ∃ m, ((loginRoute ext today db email password).1).user = some (loginUserResponse m) := by
  unfold loginRoute
  by_cases h1 : loginValidatorErrors ext email password = []
  · rw [if_pos h1]
    dsimp only []
    by_cases hz :
        ((if ext.isEmail (sanitizeEmail ext (email.getD "")) = true then ([] : List FieldErr)
          else [⟨"email", "Invalid email format"⟩]) ++
         (if 1 ≤ (password.getD "").length then ([] : List FieldErr)
          else [⟨"password", "Password is required"⟩])) = []
    · rw [if_pos hz]
      exact loginCtrl_user_cases ext today db (sanitizeEmail ext (email.getD ""))
        (password.getD "")
    · rw [if_neg hz]
      left
      rfl
  · rw [if_neg h1]
    left
    rfl

/-- Claim C7: no serialization helper (`toJSON`, `sanitizeUser`, `toPlain`,
`sanitizeUserForPublic`) ever emits a `password` key, and the user object of
every register and login response — success or error path — carries no
`password` field. -/
theorem password_never_in_responses :
    (∀ u, "password" ∉ (toJSON u).map Prod.fst) ∧
    (∀ u, "password" ∉ (sanitizeUser u).map Prod.fst) ∧
    (∀ u, "password" ∉ (toPlain u).map Prod.fst) ∧
    (∀ (today : SDate) u, "password" ∉ (sanitizeUserForPublic today u).map Prod.fst) ∧
    (∀ ext today db p usr, ((registerRoute ext today db p).1).user = some usr →
        "password" ∉ usr.map Prod.fst) ∧
    (∀ ext today db email password usr,
        ((loginRoute ext today db email password).1).user = some usr →
        "password" ∉ usr.map Prod.fst) := by
  have hdel : ∀ (k2 : String) (u : List (String × Jval)),
      "password" ∉ (deleteKey k2 (deleteKey "password" u)).map Prod.fst := by
    intro k2 u hm
    obtain ⟨kv, hmem, hk⟩ := List.mem_map.mp hm
    simp only [deleteKey, List.mem_filter] at hmem
    rw [hk] at hmem
    simp at hmem
  have hdelP : ∀ (w : List (String × Jval)),
      "password" ∉ (deleteKey "password" w).map Prod.fst := by
    intro w hm
    obtain ⟨kv, hmem, hk⟩ := List.mem_map.mp hm
    simp only [deleteKey, List.mem_filter] at hmem
    rw [hk] at hmem
    simp at hmem
  have hreg : ∀ m : MongooseUser, "password" ∉ (regUserResponse m).map Prod.fst := by
    intro m
    simp [regUserResponse]
  have hlog : ∀ m : MongooseUser, "password" ∉ (loginUserResponse m).map Prod.fst := by
    intro m
    simp [loginUserResponse]
  have hpub : ∀ (today : SDate) (u : List (String × Jval)),
      "password" ∉ (sanitizeUserForPublic today u).map Prod.fst := by
    intro today u hm
    simp only [sanitizeUserForPublic, List.map_append, List.mem_append] at hm
    rcases hm with hm | hm
    · obtain ⟨kv, hmem, hk⟩ := List.mem_map.mp hm
      rw [List.mem_filter] at hmem
      rw [hk] at hmem
      have hc : publicKeys.contains "password" = false := by decide
      rw [hc] at hmem
      exact Bool.noConfusion hmem.2
    · simp at hm
  refine ⟨fun u => hdel "__v" u, fun u => hdel "__v" u, fun u => hdelP _, hpub, ?_, ?_⟩
  · intro ext today db p usr hu
    rcases registerRoute_user_cases ext today db p with h | ⟨m, h⟩
    · rw [h] at hu
      exact Option.noConfusion hu
    · rw [h] at hu
      injection hu with h2
      subst h2
      exact hreg m
  · intro ext today db email password usr hu
    rcases loginRoute_user_cases ext today db email password with h | ⟨m, h⟩
    · rw [h] at hu
      exact Option.noConfusion hu
    · rw [h] at hu
      injection hu with h2
      subst h2
      exact hlog m

/-- Witness for C7 on the concrete successful registration response. -/
theorem password_never_in_responses_witness :
    "password" ∉ (((registerRoute ext₀ today₀ [] payload₀).1.user).getD []).map Prod.fst :=
  password_never_in_responses.2.2.2.2.1 ext₀ today₀ [] payload₀
    (((registerRoute ext₀ today₀ [] payload₀).1.user).getD []) (by decide)

set_option maxRecDepth 10000 in
/-- Claim C8 (code bug): omitting `address.zip_code` from an otherwise fully
valid registration is rejected with 400 and the error
"ZIP code must be 4 digits" — both validation layers feed the default `""`
back into the 4-digit regex — and no record is created; a supplied
`zip_code` is accepted exactly when it is 4 digits. -/
theorem zip_code_omission_rejected :
    (registerRoute ext₀ today₀ [] payloadNoZip).1.status = 400 ∧
    (⟨"address.zip_code", "ZIP code must be 4 digits"⟩ : FieldErr) ∈
      (registerRoute ext₀ today₀ [] payloadNoZip).1.errors ∧
    (registerRoute ext₀ today₀ [] payloadNoZip).2 = [] ∧
    (∀ s : String, zodZipParse (some s) = Except.ok s ↔ zip4 s.data = true) := by
  refine ⟨by decide, by decide, by decide, ?_⟩
  intro s
  by_cases hz : zip4 s.data = true
  · simp [zodZipParse, hz]
  · simp [zodZipParse, hz]

/-- Counterexample to C9 as frozen: selecting a barangay does not reset the
search filter — here the query "bo" survives the selection — even though the
selection does emit the four names and closes the picker. -/
theorem picker_barangay_select_keeps_search :
    (handleBarangaySelect pickerState₀ ⟨"015518001", "Bonuan Binloc"⟩).state.searchQuery = "bo" ∧
    ¬ (handleBarangaySelect pickerState₀ ⟨"015518001", "Bonuan Binloc"⟩).state.searchQuery = "" ∧
    (handleBarangaySelect pickerState₀ ⟨"015518001", "Bonuan Binloc"⟩).emitted =
      some ⟨"Region I", "Pangasinan", "Dagupan City", "Bonuan Binloc"⟩ ∧
    (handleBarangaySelect pickerState₀ ⟨"015518001", "Bonuan Binloc"⟩).closed = true :=
  ⟨rfl, by decide, rfl, rfl⟩

/-- Claim C9 as amended: selecting at the region, province or city level clears
every deeper selection and cached option list and resets the search filter;
selecting a barangay records it and — exactly when region, province and city
are all selected — emits the four selected names (not codes) and closes the
picker, leaving the search filter unchanged; no other handler ever emits. -/
theorem picker_cascade_amended :
    (∀ s r, (handleRegionSelect s r).state.selectedRegion = some r ∧
        (handleRegionSelect s r).state.selectedProvince = none ∧
        (handleRegionSelect s r).state.selectedCity = none ∧
        (handleRegionSelect s r).state.selectedBarangay = none ∧
        (handleRegionSelect s r).state.provinces = [] ∧
        (handleRegionSelect s r).state.cities = [] ∧
        (handleRegionSelect s r).state.barangays = [] ∧
        (handleRegionSelect s r).state.searchQuery = "" ∧
        (handleRegionSelect s r).emitted = none ∧ (handleRegionSelect s r).closed = false) ∧
    (∀ s p, (handleProvinceSelect s p).state.selectedProvince = some p ∧
        (handleProvinceSelect s p).state.selectedCity = none ∧
        (handleProvinceSelect s p).state.selectedBarangay = none ∧
        (handleProvinceSelect s p).state.cities = [] ∧
        (handleProvinceSelect s p).state.barangays = [] ∧
        (handleProvinceSelect s p).state.searchQuery = "" ∧
        (handleProvinceSelect s p).emitted = none ∧ (handleProvinceSelect s p).closed = false) ∧
    (∀ s c, (handleCitySelect s c).state.selectedCity = some c ∧
        (handleCitySelect s c).state.selectedBarangay = none ∧
        (handleCitySelect s c).state.barangays = [] ∧
        (handleCitySelect s c).state.searchQuery = "" ∧
        (handleCitySelect s c).emitted = none ∧ (handleCitySelect s c).closed = false) ∧
    (∀ s b, (handleBarangaySelect s b).state.searchQuery = s.searchQuery ∧
        (handleBarangaySelect s b).emitted =
          (match s.selectedRegion, s.selectedProvince, s.selectedCity with
           | some r, some p, some c => some ⟨r.name, p.name, c.name, b.name⟩
           | _, _, _ => none) ∧
        (handleBarangaySelect s b).closed = ((handleBarangaySelect s b).emitted).isSome) ∧
    (∀ s x, (goBack s).emitted = none ∧ (resetSelection s).emitted = none ∧
        (handleRegionSelect s x).emitted = none ∧ (handleProvinceSelect s x).emitted = none ∧
        (handleCitySelect s x).emitted = none) := by
  refine ⟨fun s r => ⟨rfl, rfl, rfl, rfl, rfl, rfl, rfl, rfl, rfl, rfl⟩,
          fun s p => ⟨rfl, rfl, rfl, rfl, rfl, rfl, rfl, rfl⟩,
          fun s c => ⟨rfl, rfl, rfl, rfl, rfl, rfl⟩, ?_,
          fun s x => ⟨rfl, rfl, rfl, rfl, rfl⟩⟩
  intro s b
  rcases hr : s.selectedRegion with _ | r <;> rcases hp : s.selectedProvince with _ | p <;>
    rcases hc : s.selectedCity with _ | c <;>
      simp [handleBarangaySelect, hr, hp, hc]

/-- Helper: lowercasing preserves emptiness of a string. -/
theorem email_lower_empty_iff (t : String) : (toLowerStr t = "") ↔ (t = "") := by
  rw [String.ext_iff, String.ext_iff]
  simp [toLowerStr]

/-- Claim C10: under the facts that the external email normalizer and validator
of validator.js are insensitive to lowercasing of their input (their default
configurations lowercase internally), an email and its lowercased form sanitize
identically, make the entire login route behave identically, make the entire
register route behave identically, and produce the identical stored email after
the Mongoose lowercase/trim setters — email identity at the public interface is
case-insensitive. -/
theorem email_case_insensitive (ext : ExtLib)
    (hn : ∀ s, ext.normalizeEmail (toLowerStr s) = ext.normalizeEmail s)
    (hie : ∀ s, ext.isEmail (toLowerStr s) = ext.isEmail s) :
    (∀ e, sanitizeEmail ext (toLowerStr e) = sanitizeEmail ext e) ∧
    (∀ (today : SDate) (db : List MongooseUser) (e : String) (pw : Option String),
        loginRoute ext today db (some (toLowerStr e)) pw =
        loginRoute ext today db (some e) pw) ∧
    (∀ (today : SDate) (db : List MongooseUser) (p : RegisterPayload) (e : String),
        registerRoute ext today db { p with email := some (toLowerStr e) } =
        registerRoute ext today db { p with email := some e }) ∧
    (∀ e, mongooseEmailSet (sanitizeEmail ext (toLowerStr e)) =
        mongooseEmailSet (sanitizeEmail ext e)) := by
  have hs : ∀ e, sanitizeEmail ext (toLowerStr e) = sanitizeEmail ext e := by
    intro e
    unfold sanitizeEmail
    rw [hn]
  refine ⟨hs, ?_, ?_, fun e => by rw [hs]⟩
  · intro today db e pw
    unfold loginRoute loginValidatorErrors
    simp only [Option.getD_some, hie e, hs e, email_lower_empty_iff e]
  · intro today db p e
    have hev : evEmail ext (some (toLowerStr e)) = evEmail ext (some e) := by
      unfold evEmail
      simp only [Option.getD_some, hie e, email_lower_empty_iff e]
    have herrs : registerValidatorErrors ext { p with email := some (toLowerStr e) } =
        registerValidatorErrors ext { p with email := some e } := by
      unfold registerValidatorErrors
      dsimp only []
      rw [hev]
    have hsan : sanitizeBody ext { p with email := some (toLowerStr e) } =
        sanitizeBody ext { p with email := some e } := by
      unfold sanitizeBody
      simp only [Option.getD_some]
      rw [hs e]
    unfold registerRoute
    rw [herrs, hsan]

/-- Witness for C10 with the constant normalizer oracle and a mixed-case
email. -/
theorem email_case_insensitive_witness :
    sanitizeEmail extConst (toLowerStr "Ana@Example.COM") =
      sanitizeEmail extConst "Ana@Example.COM" ∧
    loginRoute extConst today₀ [] (some (toLowerStr "Ana@Example.COM")) (some "password1") =
      loginRoute extConst today₀ [] (some "Ana@Example.COM") (some "password1") :=
  ⟨(email_case_insensitive extConst (fun _ => rfl) (fun _ => rfl)).1 "Ana@Example.COM",
   (email_case_insensitive extConst (fun _ => rfl) (fun _ => rfl)).2.1 today₀ []
     "Ana@Example.COM" (some "password1")⟩

end PDAO
